import Mathlib

/-!
Verification development for the matchmaking lobby server
(`lobby-server/src/main.rs` and `lobby-server/src/lib.rs`).

The event-loop state engine is embedded shallowly: the Rust `ServerState`
together with the synchronous handlers `handle_message`,
`handle_player_left_lobby` and `start_game` become pure Lean functions from a
state to a state plus a list of outbound sends.  Conventions used throughout:

* `PlayerId`, `LobbyId` (random 128-bit UUIDs in Rust) and `Team` (a `usize`
  index) are modelled as `Nat`.  Fresh UUID minting (`LobbyId::new()`) is
  modelled by a `next_id` counter field on the state; only freshness matters.
* `HashMap` and `HashSet` are modelled as association lists / lists with
  unique keys.  Rust's `HashMap` iteration order is unspecified and
  per-instance randomized, so the stored list order of an association list
  stands for one admissible iteration order and is part of the state: a
  conclusion that depends on iteration order must either hold for every
  stored order or exhibit a particular one.
* `Vec::unwrap` lookups that the surrounding guards or the data-model
  invariants make infallible are modelled with `getD` defaults; `todo!()`
  calls and `unwrap`s on genuinely reachable panic paths make the handler
  return `none` (the Rust process would abort).
* Network sends (`send_message`, `broadcast_lobby_message`) are modelled as
  the list of `(recipient, message)` pairs the loop hands to writer tasks, in
  the order they are issued.  A send to a player with no connection record is
  dropped, as in the code.
* Child-process spawning and the asynchronous supervisor task are outside the
  state engine; `start_game` is modelled up to its synchronous effect on the
  engine state (free-port search and insertion of the per-lobby handle).  The
  port captured by the supervisor task is recorded as the handle's value.
-/

namespace LobbyServer

/-- Association-list lookup: first entry with the given key
(models `HashMap::get`; keys are unique in reachable states). -/
def lookupA {β : Type} : List (Nat × β) → Nat → Option β
  | [], _ => none
  | (k, v) :: rest, key => if k = key then some v else lookupA rest key

/-- Replace the value at a key, keeping list position
(models mutation through `HashMap::get_mut`); no-op if the key is absent. -/
def updateA {β : Type} : List (Nat × β) → Nat → β → List (Nat × β)
  | [], _, _ => []
  | (k, v) :: rest, key, nv =>
    if k = key then (k, nv) :: rest else (k, v) :: updateA rest key nv

/-- Apply a function to the value at a key, keeping list position
(models mutation through `HashMap::get_mut`); no-op if the key is absent. -/
def updateAf {β : Type} : List (Nat × β) → Nat → (β → β) → List (Nat × β)
  | [], _, _ => []
  | (k, v) :: rest, key, f =>
    if k = key then (k, f v) :: rest else (k, v) :: updateAf rest key f

/-- Insert-or-replace (models `HashMap::insert`): replaces in place if the
key exists, otherwise appends. -/
def insertA {β : Type} : List (Nat × β) → Nat → β → List (Nat × β)
  | [], key, nv => [(key, nv)]
  | (k, v) :: rest, key, nv =>
    if k = key then (k, nv) :: rest else (k, v) :: insertA rest key nv

/-- Remove the entry with the given key (models `HashMap::remove`). -/
def removeA {β : Type} : List (Nat × β) → Nat → List (Nat × β)
  | [], _ => []
  | (k, v) :: rest, key => if k = key then rest else (k, v) :: removeA rest key

/-- `lobby-server/src/lib.rs` `LobbySettings`. -/
structure LobbySettings where
  name : String
  map : String
  team_count : Nat
  player_limit_per_team : Nat
  players_can_change_team : Bool
  lobby_is_open : Bool
deriving DecidableEq, Repr

/-- `ChampionSelection {champion: String, locked: bool}` (shape taken from its
uses in `main.rs`; the defining crate file is newer than the `lib.rs` copy in
the tree). -/
structure ChampionSelection where
  champion : String
  locked : Bool
deriving DecidableEq, Repr

/-- `ChampSelectState` as used in `main.rs`: the champion catalog and the
per-member selection map (`HashMap<PlayerId, Option<ChampionSelection>>`). -/
structure ChampSelectState where
  available_champs : List String
  selected_champs : List (Nat × Option ChampionSelection)
deriving DecidableEq, Repr

/-- `LobbyState` as used in `main.rs`: only `Normal` and
`ChampSelect(state)` are ever constructed or matched there. -/
inductive LobbyState where
  | Normal : LobbyState
  | ChampSelect : ChampSelectState → LobbyState
deriving DecidableEq, Repr

/-- `Lobby`: `players` is `HashMap<Team, Vec<PlayerId>>`, modelled as an
association list from team index to member list (see module comment on
iteration order). -/
structure Lobby where
  id : Nat
  settings : LobbySettings
  leader : Nat
  players : List (Nat × List Nat)
  lobby_state : LobbyState
deriving DecidableEq, Repr

/-- `PlayerInfo` (the connection handle of `PlayerInfoWithConn` is dropped;
presence of the record stands for a live connection). -/
structure PlayerInfo where
  id : Nat
  name : String
deriving DecidableEq, Repr

/-- `PlayerInfoWithConn` minus the transport handle. -/
structure PlayerRec where
  player : PlayerInfo
  in_lobby : Option Nat
deriving DecidableEq, Repr

/-- `LobbyShortInfo` from `lib.rs`. -/
structure LobbyShortInfo where
  id : Nat
  name : String
  player_count : Nat
  max_player_count : Nat
deriving DecidableEq, Repr

/-- `MessageFromPlayer` (union of the `lib.rs` declaration and the champ-select
variants matched in `main.rs`). -/
inductive MessageFromPlayer where
  | InitialHandshake : String → MessageFromPlayer
  | CreateLobby : MessageFromPlayer
  | JoinLobby : Nat → MessageFromPlayer
  | LeaveLobby : MessageFromPlayer
  | SwitchTeam : Nat → Nat → MessageFromPlayer
  | SwitchPlaces : Nat → Nat → MessageFromPlayer
  | GetLobbyInfo : Nat → MessageFromPlayer
  | GetLobbyList : MessageFromPlayer
  | GetPlayerInfo : Nat → MessageFromPlayer
  | KickPlayer : Nat → MessageFromPlayer
  | UpdateSettings : LobbySettings → MessageFromPlayer
  | EnterChampSelect : MessageFromPlayer
  | SelectChampion : String → MessageFromPlayer
  | LockChampSelection : MessageFromPlayer
  | StartGame : MessageFromPlayer
  | Disconnecting : MessageFromPlayer
deriving DecidableEq, Repr

/-- `MessageFromServer` (union of the `lib.rs` declaration and the champ-select
variants constructed in `main.rs`). -/
inductive MessageFromServer where
  | InitialHandshakeResponse : Nat → MessageFromServer
  | YouJoinedLobby : Nat → MessageFromServer
  | YouLeftLobby : MessageFromServer
  | PlayerJoinedYourLobby : Nat → MessageFromServer
  | PlayerLeftYourLobby : Nat → MessageFromServer
  | PlayerSwitchedTeam : Nat → Nat → MessageFromServer
  | PlayersSwitched : Nat → Nat → MessageFromServer
  | LobbyInfo : Lobby → MessageFromServer
  | LobbyList : List LobbyShortInfo → MessageFromServer
  | PlayerInfoMsg : PlayerInfo → MessageFromServer
  | LobbyLeaderChanged : Nat → MessageFromServer
  | RequestRefused : String → MessageFromServer
  | SettingsUpdated : LobbySettings → MessageFromServer
  | ChampSelectEntered : MessageFromServer
  | PlayerSelectedChampion : Nat → String → MessageFromServer
  | ChampSelectionLocked : Nat → MessageFromServer
  | GameStarted : MessageFromServer
  | ServerShutdown : MessageFromServer
deriving DecidableEq, Repr

/-- One outbound send issued by the event loop: recipient and payload. -/
abbrev Output := Nat × MessageFromServer

/-- `ServerState` (`main.rs` lines 102-111).  `game_servers` maps a lobby to
its live game-server handle; in Rust the map stores the cancel-channel sender
and the allocated port lives in the supervisor task — the port is recorded
here as the handle's value.  `next_id` replaces random UUID minting. -/
structure ServerState where
  port_lo : Nat
  port_hi : Nat
  used_game_server_ports : List Nat
  lobbies : List (Nat × Lobby)
  game_servers : List (Nat × Nat)
  players : List (Nat × PlayerRec)
  next_id : Nat
deriving DecidableEq, Repr

/-- `impl Display for Team` (`lib.rs` lines 11-24): `Team::RED = Team(0)`
prints "Red Team", `Team::BLUE = Team(1)` prints "Blue Team", any other index
prints "Team {n}". -/
def displayTeam (n : Nat) : String :=
  if n = 0 then "Red Team"
  else if n = 1 then "Blue Team"
  else "Team " ++ toString n

/-- Rust `{:?}` (Debug) formatting of a string, as used by the
`"No map {:?} exists."` refusal: the string in double quotes with quote,
backslash and common control characters escaped.  (Rust additionally escapes
other control and non-printable characters; the two agree on printable
ASCII.) -/
def rustDebugChar (c : Char) : String :=
  if c = '"' then "\\\""
  else if c = '\\' then "\\\\"
  else if c = '\n' then "\\n"
  else if c = '\r' then "\\r"
  else if c = '\t' then "\\t"
  else String.mk [c]

/-- See `rustDebugChar`. -/
def rustDebugString (s : String) : String :=
  "\"" ++ String.join (s.data.map rustDebugChar) ++ "\""

/-- The static map catalog `MAPS` (`main.rs` lines 80-84): name with the
(unenforced) team-count bounds. -/
def MAPS : List (String × Nat × Nat) := [("Default", 2, 2)]

/-- `lobby_settings.name.chars().all(char::is_whitespace)` (Rust uses Unicode
`White_Space`; `Char.isWhitespace` agrees on ASCII). -/
def allWhitespace (s : String) : Bool :=
  s.data.all Char.isWhitespace

/-- `MAPS.iter().find(|map| map.name == lobby_settings.map)` succeeds. -/
def mapExists (m : String) : Bool :=
  (MAPS.find? (fun e => e.1 = m)).isSome

/-- Member list of a team: `lobby.players.get(&Team(i)).unwrap()`.  The
`unwrap` is infallible on reachable states (team keys are exactly
`0..team_count`); a missing key is modelled as the empty list. -/
def teamMembers (teams : List (Nat × List Nat)) (i : Nat) : List Nat :=
  (lookupA teams i).getD []

/-- `lobby.players.values().map(Vec::len).sum()`. -/
def totalPlayers (teams : List (Nat × List Nat)) : Nat :=
  (teams.map (fun e => e.2.length)).sum

/-- All members of a lobby in iteration order:
`lobby.players.values().flatten()`. -/
def allMembers (teams : List (Nat × List Nat)) : List Nat :=
  teams.flatMap (fun e => e.2)

/-- `(0..team_count).map(|i| (Team(i), len_i)).min_by_key(|x| x.1)`:
the index in `0..tc` whose team is smallest, ties resolved to the lowest
index (Rust's `min_by_key` returns the first minimum).  The
`.expect(..)` for an empty range (`tc = 0`, unreachable past the guards)
is modelled as team 0. -/
def pickTeam (tc : Nat) (teams : List (Nat × List Nat)) : Nat :=
  (List.range tc).foldl
    (fun best i =>
      if (teamMembers teams i).length < (teamMembers teams best).length then i
      else best)
    0

/-- Append a player to a team's member list
(`lobby.players.get_mut(&team).unwrap().push(pid)`). -/
def pushToTeam (teams : List (Nat × List Nat)) (t : Nat) (pid : Nat) :
    List (Nat × List Nat) :=
  updateAf teams t (fun l => l ++ [pid])

/-- The removal loop of `handle_player_left_lobby` / `SwitchTeam`: walk the
teams in iteration order, remove the first occurrence of `pid` from the first
team that contains it, then stop (`break`). -/
def removeFromTeams : List (Nat × List Nat) → Nat → List (Nat × List Nat)
  | [], _ => []
  | (t, ps) :: rest, pid =>
    if pid ∈ ps then (t, ps.erase pid) :: rest
    else (t, ps) :: removeFromTeams rest pid

/-- `find_map` over the teams: the `(team, index)` position of a player
(`SwitchPlaces`). -/
def findPos : List (Nat × List Nat) → Nat → Option (Nat × Nat)
  | [], _ => none
  | (t, ps) :: rest, pid =>
    match ps.indexOf? pid with
    | some i => some (t, i)
    | none => findPos rest pid

/-- `send_message` (`main.rs` lines 965-976): spawns one send to the player if
its connection record exists, otherwise does nothing. -/
def sendMessage (s : ServerState) (pid : Nat) (msg : MessageFromServer) :
    List Output :=
  if (lookupA s.players pid).isSome then [(pid, msg)] else []

/-- `broadcast_lobby_message` (`main.rs` lines 978-1010): one send per lobby
member (in team-map iteration order, then intra-team order), skipping the
excluded player and members with no connection record. -/
def broadcastLobby (s : ServerState) (lid : Nat) (excl : Option Nat)
    (msg : MessageFromServer) : List Output :=
  match lookupA s.lobbies lid with
  | none => []
  | some lobby =>
    (allMembers lobby.players).filterMap fun p =>
      if some p = excl then none
      else if (lookupA s.players p).isSome then some (p, msg)
      else none

/-- `ServerState::handle_player_left_lobby` (`main.rs` lines 711-755). -/
def handlePlayerLeftLobby (s : ServerState) (pid : Nat) :
    ServerState × List Output :=
  match lookupA s.players pid with
  | none => (s, [])
  | some pl =>
    match pl.in_lobby with
    | none => (s, [])
    | some lid =>
      match lookupA s.lobbies lid with
      | none => (s, [])
      | some lobby =>
        let teams := removeFromTeams lobby.players pid
        let s1 : ServerState :=
          { s with players := updateA s.players pid { pl with in_lobby := none } }
        if teams.all (fun e => e.2.isEmpty) then
          -- last member left: delete the lobby and fire the game-server
          -- cancel signal, if any (the handle is removed from the map)
          ({ s1 with
              lobbies := removeA s1.lobbies lid,
              game_servers := removeA s1.game_servers lid }, [])
        else if lobby.leader = pid then
          -- promote the first player in iteration order; the `.unwrap()` is
          -- infallible here (some team is non-empty), modelled by `headD`
          let newLeader := (allMembers teams).headD 0
          let s2 : ServerState :=
            { s1 with
                lobbies := updateA s1.lobbies lid
                  { lobby with players := teams, leader := newLeader } }
          (s2, broadcastLobby s2 lid none (.LobbyLeaderChanged newLeader)
                ++ broadcastLobby s2 lid none (.PlayerLeftYourLobby pid))
        else
          let s2 : ServerState :=
            { s1 with
                lobbies := updateA s1.lobbies lid { lobby with players := teams } }
          (s2, broadcastLobby s2 lid none (.PlayerLeftYourLobby pid))

/-- The free-port search of `start_game` (`main.rs` lines 772-779):
the first port of the inclusive range not contained in
`used_game_server_ports`.  `RangeInclusive::into_iter` ascends, so this is
the smallest such port. -/
def findFreePort (lo hi : Nat) (used : List Nat) : Option Nat :=
  (List.range' lo (hi + 1 - lo)).find? (fun p => ¬ p ∈ used)

/-- `ServerState::start_game` (`main.rs` lines 757-963), up to its synchronous
effect on the engine state.  The three `todo!()` paths (missing lobby, state
not ChampSelect, a member without a selection, port exhaustion) abort the
process and are modelled as `none`.  On success the code finds a free port,
stores the cancel-sender handle in `game_servers[lid]` (the allocated port —
captured by the supervisor task — is recorded as the handle's value) and
spawns the child process; note that `used_game_server_ports` is left
untouched.  Spawning and the asynchronous bootstrap produce no synchronous
sends on the success path. -/
def startGame (s : ServerState) (lid : Nat) :
    Option (ServerState × List Output) :=
  match lookupA s.lobbies lid with
  | none => none
  | some lobby =>
    match lobby.lobby_state with
    | .Normal => none
    | .ChampSelect sel =>
      if sel.selected_champs.any (fun e => e.2.isNone) then none
      else
        match findFreePort s.port_lo s.port_hi s.used_game_server_ports with
        | none => none
        | some port =>
          some ({ s with game_servers := insertA s.game_servers lid port }, [])

/-- The `guards!(ret e)` arm of the guard macro: send `RequestRefused` back to
the requester and stop, leaving the state untouched. -/
def refuse (s : ServerState) (pid : Nat) (r : String) :
    Option (ServerState × List Output) :=
  some (s, sendMessage s pid (.RequestRefused r))

/-- `CreateLobby` arm of `handle_message` (`main.rs` lines 383-413). -/
def handleCreateLobby (s : ServerState) (pid : Nat) (pl : PlayerRec) :
    Option (ServerState × List Output) :=
  if pl.in_lobby.isSome then refuse s pid "You are already in a lobby."
  else
    let lid := s.next_id
    let lobby : Lobby :=
      { id := lid,
        settings :=
          { name := pl.player.name ++ "'s Lobby", map := "Default",
            team_count := 2, player_limit_per_team := 5,
            players_can_change_team := true, lobby_is_open := true },
        leader := pid,
        players := [(0, [pid]), (1, [])],
        lobby_state := .Normal }
    let s' : ServerState :=
      { s with next_id := s.next_id + 1,
               lobbies := insertA s.lobbies lid lobby,
               players := updateA s.players pid { pl with in_lobby := some lid } }
    some (s', sendMessage s' pid (.YouJoinedLobby lid)
              ++ broadcastLobby s' lid (some pid) (.PlayerJoinedYourLobby pid))

/-- `JoinLobby` arm of `handle_message` (`main.rs` lines 414-444). -/
def handleJoinLobby (s : ServerState) (pid : Nat) (pl : PlayerRec) (lid : Nat) :
    Option (ServerState × List Output) :=
  if pl.in_lobby.isSome then refuse s pid "You are already in a lobby."
  else
    match lookupA s.lobbies lid with
    | none => refuse s pid "That lobby does not exist."
    | some lobby =>
      if lobby.lobby_state ≠ .Normal then refuse s pid "Lobby is in invalid state."
      else if lobby.settings.lobby_is_open = false then
        refuse s pid "The lobby is closed."
      else if lobby.settings.team_count * lobby.settings.player_limit_per_team
                ≤ totalPlayers lobby.players then
        refuse s pid "The lobby is full"
      else
        let t := pickTeam lobby.settings.team_count lobby.players
        let s' : ServerState :=
          { s with
              players := updateA s.players pid { pl with in_lobby := some lid },
              lobbies := updateA s.lobbies lid
                { lobby with players := pushToTeam lobby.players t pid } }
        some (s', sendMessage s' pid (.YouJoinedLobby lid)
                  ++ broadcastLobby s' lid (some pid) (.PlayerJoinedYourLobby pid))

/-- `LeaveLobby` arm of `handle_message` (`main.rs` lines 445-448). -/
def handleLeaveLobby (s : ServerState) (pid : Nat) :
    Option (ServerState × List Output) :=
  let out := sendMessage s pid .YouLeftLobby
  let r := handlePlayerLeftLobby s pid
  some (r.1, out ++ r.2)

/-- `SwitchTeam` arm of `handle_message` (`main.rs` lines 449-474). -/
def handleSwitchTeam (s : ServerState) (pid : Nat) (pl : PlayerRec)
    (id team : Nat) : Option (ServerState × List Output) :=
  match pl.in_lobby with
  | none => refuse s pid "You are not in a lobby."
  | some lid =>
    match lookupA s.lobbies lid with
    | none => refuse s pid "That lobby does not exist."
    | some lobby =>
      if lobby.lobby_state ≠ .Normal then refuse s pid "Lobby is in invalid state."
      else if lobby.settings.players_can_change_team = false ∧ lobby.leader ≠ pid then
        refuse s pid "Team switching is disabled in this lobby."
      else if id ≠ pid ∧ lobby.leader ≠ pid then
        refuse s pid "Cannot switch team of other player."
      else if (lookupA lobby.players team).isNone then
        refuse s pid (displayTeam team ++ " does not exist.")
      else if lobby.settings.player_limit_per_team
                ≤ (teamMembers lobby.players team).length then
        refuse s pid (displayTeam team ++ " is full.")
      else
        let teams := pushToTeam (removeFromTeams lobby.players id) team id
        let s' : ServerState :=
          { s with lobbies := updateA s.lobbies lid { lobby with players := teams } }
        some (s', broadcastLobby s' lid none (.PlayerSwitchedTeam id team))

/-- `SwitchPlaces` arm of `handle_message` (`main.rs` lines 591-631). -/
def handleSwitchPlaces (s : ServerState) (pid : Nat) (pl : PlayerRec)
    (a b : Nat) : Option (ServerState × List Output) :=
  match pl.in_lobby with
  | none => refuse s pid "You are not in a lobby."
  | some lid =>
    match lookupA s.lobbies lid with
    | none => refuse s pid "That lobby does not exist."
    | some lobby =>
      if lobby.lobby_state ≠ .Normal then refuse s pid "Lobby is in invalid state."
      else if lobby.settings.players_can_change_team = false ∧ lobby.leader ≠ pid then
        refuse s pid "Team switching is disabled in this lobby."
      else if lobby.leader ≠ pid then
        refuse s pid "Non-leader cannot switch places of players."
      else
        match findPos lobby.players a with
        | none => refuse s pid "Player does not exist"
        | some pa =>
          match findPos lobby.players b with
          | none => refuse s pid "Player does not exist"
          | some pb =>
            let teams1 := updateAf lobby.players pa.1 (fun l => l.set pa.2 b)
            let teams2 := updateAf teams1 pb.1 (fun l => l.set pb.2 a)
            let s' : ServerState :=
              { s with lobbies := updateA s.lobbies lid { lobby with players := teams2 } }
            some (s', broadcastLobby s' lid none (.PlayersSwitched a b))

/-- `GetLobbyInfo` arm of `handle_message` (`main.rs` lines 475-480). -/
def handleGetLobbyInfo (s : ServerState) (pid lid : Nat) :
    Option (ServerState × List Output) :=
  match lookupA s.lobbies lid with
  | none => refuse s pid "That lobby does not exist."
  | some lobby => some (s, sendMessage s pid (.LobbyInfo lobby))

/-- `GetLobbyList` arm of `handle_message` (`main.rs` lines 481-494). -/
def handleGetLobbyList (s : ServerState) (pid : Nat) :
    Option (ServerState × List Output) :=
  let list := s.lobbies.map fun e =>
    { id := e.2.id, name := e.2.settings.name,
      player_count := totalPlayers e.2.players,
      max_player_count :=
        e.2.settings.team_count * e.2.settings.player_limit_per_team
      : LobbyShortInfo }
  some (s, sendMessage s pid (.LobbyList list))

/-- `GetPlayerInfo` arm of `handle_message` (`main.rs` lines 495-507):
silent drop when the id is unknown. -/
def handleGetPlayerInfo (s : ServerState) (pid id : Nat) :
    Option (ServerState × List Output) :=
  match lookupA s.players id with
  | some p => some (s, sendMessage s pid (.PlayerInfoMsg p.player))
  | none => some (s, [])

/-- `KickPlayer` arm of `handle_message` (`main.rs` lines 511-521): after the
leader guards, send `YouLeftLobby` to the target and run the left-lobby
routine on it — the target's membership in the requester's lobby is not
examined. -/
def handleKickPlayer (s : ServerState) (pid : Nat) (pl : PlayerRec) (id : Nat) :
    Option (ServerState × List Output) :=
  match pl.in_lobby with
  | none => refuse s pid "You are not in a lobby."
  | some lid =>
    match lookupA s.lobbies lid with
    | none => refuse s pid "That lobby does not exist."
    | some lobby =>
      if lobby.lobby_state ≠ .Normal then refuse s pid "Lobby is in invalid state."
      else if lobby.leader ≠ pid then refuse s pid "You are not the lobby leader."
      else
        let out := sendMessage s id .YouLeftLobby
        let r := handlePlayerLeftLobby s id
        some (r.1, out ++ r.2)

/-- The reshuffle block of the `UpdateSettings` arm (`main.rs` lines
539-582), for old settings `st` and new settings `ns`.  Step 1: on a
team-count decrease, remove teams `[ns.team_count, st.team_count)` in
ascending index order, collecting their members; on an increase, insert the
missing teams empty.  Step 2: if the per-team limit was lowered or some team
overflows it, drain every team's tail `[ns.player_limit_per_team..]` in
iteration order.  Finally greedy-place the displaced players FIFO into the
currently smallest team (ties to the lowest index). -/
def reshuffleTeams (st ns : LobbySettings) (teams : List (Nat × List Nat)) :
    List (Nat × List Nat) :=
  let step1 : List (Nat × List Nat) × List Nat :=
    if ns.team_count < st.team_count then
      (List.range' ns.team_count (st.team_count - ns.team_count)).foldl
        (fun acc t => (removeA acc.1 t, acc.2 ++ (lookupA acc.1 t).getD []))
        (teams, [])
    else if st.team_count < ns.team_count then
      ((List.range' st.team_count (ns.team_count - st.team_count)).foldl
        (fun ts t => insertA ts t []) teams, [])
    else (teams, [])
  let step2 : List (Nat × List Nat) × List Nat :=
    if ns.player_limit_per_team < st.player_limit_per_team
        ∨ step1.1.any (fun e => ns.player_limit_per_team < e.2.length) then
      (step1.1.map (fun e => (e.1, e.2.take ns.player_limit_per_team)),
       step1.1.flatMap (fun e => e.2.drop ns.player_limit_per_team))
    else (step1.1, [])
  (step1.2 ++ step2.2).foldl
    (fun ts p => pushToTeam ts (pickTeam ns.team_count ts) p) step2.1

/-- `UpdateSettings` arm of `handle_message` (`main.rs` lines 522-590),
including the reshuffle. -/
def handleUpdateSettings (s : ServerState) (pid : Nat) (pl : PlayerRec)
    (ns : LobbySettings) : Option (ServerState × List Output) :=
  match pl.in_lobby with
  | none => refuse s pid "You are not in a lobby."
  | some lid =>
    match lookupA s.lobbies lid with
    | none => refuse s pid "That lobby does not exist."
    | some lobby =>
      if lobby.lobby_state ≠ .Normal then refuse s pid "Lobby is in invalid state."
      else if lobby.leader ≠ pid then refuse s pid "You are not the lobby leader."
      else if ns.name = "" then refuse s pid "Lobby name cannot be empty."
      else if allWhitespace ns.name then
        refuse s pid "Lobby name cannot be only whitespace."
      else if mapExists ns.map = false then
        refuse s pid ("No map " ++ rustDebugString ns.map ++ " exists.")
      else if ns.team_count < 1 then refuse s pid "There must be at least 1 team."
      else if ns = lobby.settings then some (s, [])
      else
        let lobby' : Lobby :=
          { lobby with players := reshuffleTeams lobby.settings ns lobby.players,
                       settings := ns }
        let s' : ServerState :=
          { s with lobbies := updateA s.lobbies lid lobby' }
        some (s', broadcastLobby s' lid none (.SettingsUpdated ns))

/-- `EnterChampSelect` arm of `handle_message` (`main.rs` lines 632-653). -/
def handleEnterChampSelect (s : ServerState) (pid : Nat) (pl : PlayerRec) :
    Option (ServerState × List Output) :=
  match pl.in_lobby with
  | none => refuse s pid "You are not in a lobby."
  | some lid =>
    match lookupA s.lobbies lid with
    | none => refuse s pid "That lobby does not exist."
    | some lobby =>
      if lobby.lobby_state ≠ .Normal then refuse s pid "Lobby is in invalid state."
      else if lobby.leader ≠ pid then
        refuse s pid "Non-leader cannot trigger champ select."
      else
        let cs : ChampSelectState :=
          { available_champs :=
              (List.range' 1 100).map (fun d => "Champ " ++ toString d),
            selected_champs :=
              (allMembers lobby.players).map (fun p => (p, none)) }
        let lobby' : Lobby := { lobby with lobby_state := .ChampSelect cs }
        let s' : ServerState :=
          { s with lobbies := updateA s.lobbies lid lobby' }
        some (s', broadcastLobby s' lid none .ChampSelectEntered)

/-- `SelectChampion` arm of `handle_message` (`main.rs` lines 654-675).  The
`selected_champs.get(&player_id).unwrap()` panics when the requester has no
entry; that path is `none`. -/
def handleSelectChampion (s : ServerState) (pid : Nat) (pl : PlayerRec)
    (c : String) : Option (ServerState × List Output) :=
  match pl.in_lobby with
  | none => refuse s pid "You are not in a lobby."
  | some lid =>
    match lookupA s.lobbies lid with
    | none => refuse s pid "That lobby does not exist."
    | some lobby =>
      match lobby.lobby_state with
      | .Normal => refuse s pid "Lobby is in invalid state."
      | .ChampSelect st =>
        if ¬ c ∈ st.available_champs then
          refuse s pid "That champion does not exist."
        else
          match lookupA st.selected_champs pid with
          | none => none
          | some cur =>
            if (cur.map (fun x => x.locked)).getD false then
              refuse s pid "You cannot change locked selection."
            else
              let sel' : Option ChampionSelection :=
                some { champion := c, locked := false }
              let st' : ChampSelectState :=
                { st with selected_champs := insertA st.selected_champs pid sel' }
              let lobby' : Lobby := { lobby with lobby_state := .ChampSelect st' }
              let s' : ServerState :=
                { s with lobbies := updateA s.lobbies lid lobby' }
              some (s', broadcastLobby s' lid none (.PlayerSelectedChampion pid c))

/-- `LockChampSelection` arm of `handle_message` (`main.rs` lines 676-706):
lock the requester's selection; if every selection is now locked, run
`start_game` before broadcasting `ChampSelectionLocked`. -/
def handleLockChampSelection (s : ServerState) (pid : Nat) (pl : PlayerRec) :
    Option (ServerState × List Output) :=
  match pl.in_lobby with
  | none => refuse s pid "You are not in a lobby."
  | some lid =>
    match lookupA s.lobbies lid with
    | none => refuse s pid "That lobby does not exist."
    | some lobby =>
      match lobby.lobby_state with
      | .Normal => refuse s pid "Lobby is in invalid state."
      | .ChampSelect st =>
        match lookupA st.selected_champs pid with
        | none => none
        | some none => refuse s pid "Cannot lock empty selection."
        | some (some cur) =>
          let st' : ChampSelectState :=
            { st with selected_champs :=
                insertA st.selected_champs pid (some { cur with locked := true }) }
          let lobby' : Lobby := { lobby with lobby_state := .ChampSelect st' }
          let s1 : ServerState :=
            { s with lobbies := updateA s.lobbies lid lobby' }
          if st'.selected_champs.all
              (fun e => (e.2.map (fun x => x.locked)).getD false) then
            match startGame s1 lid with
            | none => none
            | some r =>
              some (r.1, r.2 ++ broadcastLobby r.1 lid none (.ChampSelectionLocked pid))
          else
            some (s1, broadcastLobby s1 lid none (.ChampSelectionLocked pid))

/-- `ServerState::handle_message` (`main.rs` lines 286-709): dispatch on the
message after fetching the requester's record (a missing record makes the
handler return with no effect).  `StartGame` is `todo!()` in the source and
`Disconnecting` only posts a `ConnectionLost` event back onto the queue. -/
def handleMessage (s : ServerState) (pid : Nat) (msg : MessageFromPlayer) :
    Option (ServerState × List Output) :=
  match lookupA s.players pid with
  | none => some (s, [])
  | some pl =>
    match msg with
    | .InitialHandshake _ => some (s, [])
    | .CreateLobby => handleCreateLobby s pid pl
    | .JoinLobby lid => handleJoinLobby s pid pl lid
    | .LeaveLobby => handleLeaveLobby s pid
    | .SwitchTeam id team => handleSwitchTeam s pid pl id team
    | .SwitchPlaces a b => handleSwitchPlaces s pid pl a b
    | .GetLobbyInfo lid => handleGetLobbyInfo s pid lid
    | .GetLobbyList => handleGetLobbyList s pid
    | .GetPlayerInfo id => handleGetPlayerInfo s pid id
    | .KickPlayer id => handleKickPlayer s pid pl id
    | .UpdateSettings ns => handleUpdateSettings s pid pl ns
    | .EnterChampSelect => handleEnterChampSelect s pid pl
    | .SelectChampion c => handleSelectChampion s pid pl c
    | .LockChampSelection => handleLockChampSelection s pid pl
    | .StartGame => none
    | .Disconnecting => some (s, [])

/-- The guard sequence of `handle_message`, in source order, for each message:
`some reason` when some guard fails (the reason string of the first failing
guard), `none` when all guards pass — or when the message has no guards, when
the requester is unknown, or when the source panics before any guard can fail
(`LockChampSelection` / `SelectChampion` with no `selected_champs` entry,
`StartGame`'s `todo!()`).  The two `SwitchPlaces` membership checks behave as
guards in the source (refusal, early return) and are included. -/
def checkGuards (s : ServerState) (pid : Nat) (msg : MessageFromPlayer) :
    Option String :=
  match lookupA s.players pid with
  | none => none
  | some pl =>
    match msg with
    | .InitialHandshake _ => none
    | .CreateLobby =>
      if pl.in_lobby.isSome then some "You are already in a lobby." else none
    | .JoinLobby lid =>
      if pl.in_lobby.isSome then some "You are already in a lobby."
      else
        match lookupA s.lobbies lid with
        | none => some "That lobby does not exist."
        | some lobby =>
          if lobby.lobby_state ≠ .Normal then some "Lobby is in invalid state."
          else if lobby.settings.lobby_is_open = false then
            some "The lobby is closed."
          else if lobby.settings.team_count * lobby.settings.player_limit_per_team
                    ≤ totalPlayers lobby.players then
            some "The lobby is full"
          else none
    | .LeaveLobby => none
    | .SwitchTeam id team =>
      match pl.in_lobby with
      | none => some "You are not in a lobby."
      | some lid =>
        match lookupA s.lobbies lid with
        | none => some "That lobby does not exist."
        | some lobby =>
          if lobby.lobby_state ≠ .Normal then some "Lobby is in invalid state."
          else if lobby.settings.players_can_change_team = false ∧ lobby.leader ≠ pid then
            some "Team switching is disabled in this lobby."
          else if id ≠ pid ∧ lobby.leader ≠ pid then
            some "Cannot switch team of other player."
          else if (lookupA lobby.players team).isNone then
            some (displayTeam team ++ " does not exist.")
          else if lobby.settings.player_limit_per_team
                    ≤ (teamMembers lobby.players team).length then
            some (displayTeam team ++ " is full.")
          else none
    | .SwitchPlaces a b =>
      match pl.in_lobby with
      | none => some "You are not in a lobby."
      | some lid =>
        match lookupA s.lobbies lid with
        | none => some "That lobby does not exist."
        | some lobby =>
          if lobby.lobby_state ≠ .Normal then some "Lobby is in invalid state."
          else if lobby.settings.players_can_change_team = false ∧ lobby.leader ≠ pid then
            some "Team switching is disabled in this lobby."
          else if lobby.leader ≠ pid then
            some "Non-leader cannot switch places of players."
          else if (findPos lobby.players a).isNone then
            some "Player does not exist"
          else if (findPos lobby.players b).isNone then
            some "Player does not exist"
          else none
    | .GetLobbyInfo lid =>
      if (lookupA s.lobbies lid).isNone then some "That lobby does not exist."
      else none
    | .GetLobbyList => none
    | .GetPlayerInfo _ => none
    | .KickPlayer _ =>
      match pl.in_lobby with
      | none => some "You are not in a lobby."
      | some lid =>
        match lookupA s.lobbies lid with
        | none => some "That lobby does not exist."
        | some lobby =>
          if lobby.lobby_state ≠ .Normal then some "Lobby is in invalid state."
          else if lobby.leader ≠ pid then some "You are not the lobby leader."
          else none
    | .UpdateSettings ns =>
      match pl.in_lobby with
      | none => some "You are not in a lobby."
      | some lid =>
        match lookupA s.lobbies lid with
        | none => some "That lobby does not exist."
        | some lobby =>
          if lobby.lobby_state ≠ .Normal then some "Lobby is in invalid state."
          else if lobby.leader ≠ pid then some "You are not the lobby leader."
          else if ns.name = "" then some "Lobby name cannot be empty."
          else if allWhitespace ns.name then
            some "Lobby name cannot be only whitespace."
          else if mapExists ns.map = false then
            some ("No map " ++ rustDebugString ns.map ++ " exists.")
          else if ns.team_count < 1 then some "There must be at least 1 team."
          else none
    | .EnterChampSelect =>
      match pl.in_lobby with
      | none => some "You are not in a lobby."
      | some lid =>
        match lookupA s.lobbies lid with
        | none => some "That lobby does not exist."
        | some lobby =>
          if lobby.lobby_state ≠ .Normal then some "Lobby is in invalid state."
          else if lobby.leader ≠ pid then
            some "Non-leader cannot trigger champ select."
          else none
    | .SelectChampion c =>
      match pl.in_lobby with
      | none => some "You are not in a lobby."
      | some lid =>
        match lookupA s.lobbies lid with
        | none => some "That lobby does not exist."
        | some lobby =>
          match lobby.lobby_state with
          | .Normal => some "Lobby is in invalid state."
          | .ChampSelect st =>
            if ¬ c ∈ st.available_champs then
              some "That champion does not exist."
            else
              match lookupA st.selected_champs pid with
              | none => none
              | some cur =>
                if (cur.map (fun x => x.locked)).getD false then
                  some "You cannot change locked selection."
                else none
    | .LockChampSelection =>
      match pl.in_lobby with
      | none => some "You are not in a lobby."
      | some lid =>
        match lookupA s.lobbies lid with
        | none => some "That lobby does not exist."
        | some lobby =>
          match lobby.lobby_state with
          | .Normal => some "Lobby is in invalid state."
          | .ChampSelect st =>
            match lookupA st.selected_champs pid with
            | none => none
            | some none => some "Cannot lock empty selection."
            | some (some _) => none
    | .StartGame => none
    | .Disconnecting => none

/-- A server state with one connected player (id 1) who is already recorded
as being in lobby 5. -/
def c2State : ServerState :=
  { port_lo := 0, port_hi := 0, used_game_server_ports := [], lobbies := [],
    game_servers := [],
    players := [(1, { player := { id := 1, name := "a" }, in_lobby := some 5 })],
    next_id := 0 }

/-- Default-style settings used by the concrete scenario states. -/
def exSettings : LobbySettings :=
  { name := "L", map := "Default", team_count := 2, player_limit_per_team := 5,
    players_can_change_team := true, lobby_is_open := true }

/-- Two single-player lobbies (ids 1 and 2), each in ChampSelect with every
selection made and locked, so that `start_game` can run for both. -/
def c1State : ServerState :=
  { port_lo := 40000, port_hi := 40010, used_game_server_ports := [],
    lobbies :=
      [(1, { id := 1, settings := exSettings, leader := 1,
             players := [(0, [1]), (1, [])],
             lobby_state := .ChampSelect
               { available_champs := ["Champ 1"],
                 selected_champs := [(1, some { champion := "Champ 1", locked := true })] } }),
       (2, { id := 2, settings := exSettings, leader := 2,
             players := [(0, [2]), (1, [])],
             lobby_state := .ChampSelect
               { available_champs := ["Champ 1"],
                 selected_champs := [(2, some { champion := "Champ 1", locked := true })] } })],
    game_servers := [],
    players := [(1, { player := { id := 1, name := "a" }, in_lobby := some 1 }),
                (2, { player := { id := 2, name := "b" }, in_lobby := some 2 })],
    next_id := 100 }

/-- `c1State` after `start_game` for lobby 1. -/
def c1After1 : ServerState := ((startGame c1State 1).getD (c1State, [])).1

/-- `c1After1` after `start_game` for lobby 2. -/
def c1After2 : ServerState := ((startGame c1After1 2).getD (c1After1, [])).1

/-- Members of a lobby (team-map iteration order), if the lobby exists. -/
def lobbyMembersOf (s : ServerState) (lid : Nat) : Option (List Nat) :=
  (lookupA s.lobbies lid).map fun l => allMembers l.players

/-- Key set of `selected_champs`, if the lobby exists and is in ChampSelect. -/
def champSelectKeysOf (s : ServerState) (lid : Nat) : Option (List Nat) :=
  (lookupA s.lobbies lid).bind fun l =>
    match l.lobby_state with
    | .ChampSelect cs => some (cs.selected_champs.map Prod.fst)
    | _ => none

/-- Lobby 10 in Normal state with members 1 (leader) and 2 on separate
teams, both connected. -/
def c3State : ServerState :=
  { port_lo := 40000, port_hi := 40010, used_game_server_ports := [],
    lobbies :=
      [(10, { id := 10, settings := exSettings, leader := 1,
              players := [(0, [1]), (1, [2])], lobby_state := .Normal })],
    game_servers := [],
    players := [(1, { player := { id := 1, name := "a" }, in_lobby := some 10 }),
                (2, { player := { id := 2, name := "b" }, in_lobby := some 10 })],
    next_id := 100 }

/-- `c3State` after the leader's `EnterChampSelect`. -/
def c3AfterEnter : ServerState :=
  ((handleMessage c3State 1 .EnterChampSelect).getD (c3State, [])).1

/-- `c3AfterEnter` after player 2 leaves (the left-lobby routine, as run by
`ConnectionLost`, `LeaveLobby` or `KickPlayer`). -/
def c3AfterLeave : ServerState := (handlePlayerLeftLobby c3AfterEnter 2).1

/-- Lobby 10 in Normal state whose team 0 is at the player limit; player 1
is its leader and a member. -/
def c8State : ServerState :=
  { port_lo := 40000, port_hi := 40010, used_game_server_ports := [],
    lobbies :=
      [(10, { id := 10, settings := exSettings, leader := 1,
              players := [(0, [1, 2, 3, 4, 5]), (1, [])],
              lobby_state := .Normal })],
    game_servers := [],
    players := [(1, { player := { id := 1, name := "a" }, in_lobby := some 10 })],
    next_id := 100 }

/-- Record of the leader (player 1) of lobby 10 in the leader-departure
scenario. -/
def c4Rec : PlayerRec := { player := { id := 1, name := "a" }, in_lobby := some 10 }

/-- Lobby 10 with map content `{0: [1, 2], 1: [3]}` and leader 1, stored with
the team-1 entry first: an admissible iteration order of the source's
`HashMap<Team, Vec<PlayerId>>`, whose order is unspecified and per-instance
randomized. -/
def c4AltLobby : Lobby :=
  { id := 10, settings := exSettings, leader := 1,
    players := [(1, [3]), (0, [1, 2])], lobby_state := .Normal }

/-- State for the leader-departure scenario: lobby 10 as `c4AltLobby`, three
connected members. -/
def c4AltState : ServerState :=
  { port_lo := 40000, port_hi := 40010, used_game_server_ports := [],
    lobbies := [(10, c4AltLobby)], game_servers := [],
    players := [(1, c4Rec),
                (2, { player := { id := 2, name := "b" }, in_lobby := some 10 }),
                (3, { player := { id := 3, name := "c" }, in_lobby := some 10 })],
    next_id := 100 }

/-- Record of player 9, connected but in no lobby. -/
def c5Rec : PlayerRec := { player := { id := 9, name := "j" }, in_lobby := none }

/-- Lobby 20: one member (7) on team 0, team 1 empty — the smallest team. -/
def c5Lobby : Lobby :=
  { id := 20, settings := exSettings, leader := 7,
    players := [(0, [7]), (1, [])], lobby_state := .Normal }

/-- State for the join scenario: lobby 20 plus the joining player 9. -/
def c5State : ServerState :=
  { port_lo := 40000, port_hi := 40010, used_game_server_ports := [],
    lobbies := [(20, c5Lobby)], game_servers := [],
    players := [(7, { player := { id := 7, name := "g" }, in_lobby := some 20 }),
                (9, c5Rec)],
    next_id := 100 }

/-- Lobby 10 with teams `[[1,2,3],[4]]` and leader 1, for the
limit-lowering reshuffle scenario. -/
def c6Lobby : Lobby :=
  { id := 10, settings := exSettings, leader := 1,
    players := [(0, [1, 2, 3]), (1, [4])], lobby_state := .Normal }

/-- State for the reshuffle and the no-op `UpdateSettings` scenarios. -/
def c6State : ServerState :=
  { port_lo := 40000, port_hi := 40010, used_game_server_ports := [],
    lobbies := [(10, c6Lobby)], game_servers := [],
    players := [(1, { player := { id := 1, name := "a" }, in_lobby := some 10 }),
                (2, { player := { id := 2, name := "b" }, in_lobby := some 10 }),
                (3, { player := { id := 3, name := "c" }, in_lobby := some 10 }),
                (4, { player := { id := 4, name := "d" }, in_lobby := some 10 })],
    next_id := 100 }

/-- Lobby 30 whose only member is its leader 8; player 100 is connected but
not a member of any team of lobby 30. -/
def c9Lobby : Lobby :=
  { id := 30, settings := exSettings, leader := 8,
    players := [(0, [8]), (1, [])], lobby_state := .Normal }

/-- State for the unchecked `SwitchTeam` target scenario. -/
def c9State : ServerState :=
  { port_lo := 40000, port_hi := 40010, used_game_server_ports := [],
    lobbies := [(30, c9Lobby)], game_servers := [],
    players := [(8, { player := { id := 8, name := "h" }, in_lobby := some 30 }),
                (100, { player := { id := 100, name := "x" }, in_lobby := none })],
    next_id := 100 }

/-- Lobby 40, led by player 9 (its only member). -/
def c10LobbyL : Lobby :=
  { id := 40, settings := exSettings, leader := 9,
    players := [(0, [9]), (1, [])], lobby_state := .Normal }

/-- Lobby 41, a different lobby with members 20 (leader) and 21. -/
def c10LobbyM : Lobby :=
  { id := 41, settings := exSettings, leader := 20,
    players := [(0, [20, 21]), (1, [])], lobby_state := .Normal }

/-- Record of player 21, a member of lobby 41. -/
def c10Rec : PlayerRec := { player := { id := 21, name := "v" }, in_lobby := some 41 }

/-- State for the cross-lobby kick scenario: the leader of lobby 40 kicks
player 21, who belongs to lobby 41. -/
def c10State : ServerState :=
  { port_lo := 40000, port_hi := 40010, used_game_server_ports := [],
    lobbies := [(40, c10LobbyL), (41, c10LobbyM)], game_servers := [],
    players := [(9, { player := { id := 9, name := "i" }, in_lobby := some 40 }),
                (20, { player := { id := 20, name := "u" }, in_lobby := some 41 }),
                (21, c10Rec)],
    next_id := 100 }

lemma lookupA_updateA_self {β : Type} (l : List (Nat × β)) (k : Nat) (v w : β)
    (h : lookupA l k = some w) : lookupA (updateA l k v) k = some v := by
  induction l with
  | nil => simp [lookupA] at h
  | cons e rest ih =>
    by_cases he : e.1 = k
    · simp [lookupA, updateA, he]
    · simp [lookupA, updateA, he] at h ⊢
      exact ih h

lemma lookupA_updateA_isSome {β : Type} (l : List (Nat × β)) (k j : Nat) (v : β) :
    (lookupA (updateA l k v) j).isSome = (lookupA l j).isSome := by
  induction l with
  | nil => rfl
  | cons e rest ih =>
    rcases e with ⟨a, b⟩
    by_cases hak : a = k
    · subst hak
      simp only [updateA, if_pos rfl, lookupA]
      by_cases haj : a = j <;> simp [haj]
    · simp only [updateA, if_neg hak, lookupA]
      by_cases haj : a = j <;> simp [haj, ih]

lemma removeFromTeams_of_not_mem (l : List (Nat × List Nat)) (pid : Nat)
    (h : ¬ pid ∈ allMembers l) : removeFromTeams l pid = l := by
  induction l with
  | nil => rfl
  | cons e rest ih =>
    simp [allMembers] at h
    have hr : ¬ pid ∈ allMembers rest := by
      simp only [allMembers, List.mem_flatMap]
      rintro ⟨x, hx, hpx⟩
      exact h.2 x.1 x.2 (by simpa using hx) hpx
    simp [removeFromTeams, h.1, ih hr]

lemma filterMap_eq_map_of {α β : Type} (f : α → Option β) (g : α → β)
    (l : List α) (h : ∀ x ∈ l, f x = some (g x)) : l.filterMap f = l.map g := by
  induction l with
  | nil => rfl
  | cons e rest ih =>
    simp [List.filterMap_cons, h e (by simp)]
    exact ih (fun x hx => h x (by simp [hx]))

/-- A broadcast with no excluded player delivers the message to every lobby
member, in iteration order, when every member has a connection record. -/
lemma broadcast_all (s : ServerState) (lid : Nat) (msg : MessageFromServer)
    (lobby : Lobby) (h : lookupA s.lobbies lid = some lobby)
    (hconn : ∀ p ∈ allMembers lobby.players, (lookupA s.players p).isSome = true) :
    broadcastLobby s lid none msg
      = (allMembers lobby.players).map (fun p => (p, msg)) := by
  unfold broadcastLobby
  rw [h]
  exact filterMap_eq_map_of _ _ _ (fun p hp => by simp [hconn p hp])

lemma filterMap_if_excl {α β : Type} [DecidableEq α] (q : α)
    (present : α → Bool) (g : α → β) :
    ∀ l : List α, (∀ p ∈ l, p ≠ q → present p = true) →
      l.filterMap (fun p => if some p = some q then none
        else if present p then some (g p) else none)
      = (l.filter (fun p => ¬ p = q)).map g := by
  intro l
  induction l with
  | nil => intro _; rfl
  | cons e rest ih =>
    intro hc
    have ih' := ih (fun p hp => hc p (List.mem_cons_of_mem _ hp))
    by_cases he : e = q
    · subst he
      simp only [List.filterMap_cons, List.filter_cons, if_pos rfl]
      simp
      simpa using ih'
    · simp only [List.filterMap_cons, List.filter_cons]
      simp [he, hc e (List.mem_cons_self _ _) he]
      simpa using ih'

/-- A broadcast excluding player `q` delivers the message to every other
member with a connection record. -/
lemma broadcast_excluding (s : ServerState) (lid q : Nat)
    (msg : MessageFromServer) (lobby : Lobby)
    (h : lookupA s.lobbies lid = some lobby)
    (hconn : ∀ p ∈ allMembers lobby.players, p ≠ q →
      (lookupA s.players p).isSome = true) :
    broadcastLobby s lid (some q) msg
      = ((allMembers lobby.players).filter (fun p => ¬ p = q)).map
          (fun p => (p, msg)) := by
  simp only [broadcastLobby, h]
  exact filterMap_if_excl q (fun p => (lookupA s.players p).isSome)
    (fun p => (p, msg)) _ hconn

lemma mem_allMembers_pushToTeam : ∀ (l : List (Nat × List Nat)) (t x p : Nat),
    p ∈ allMembers (pushToTeam l t x) → p ∈ allMembers l ∨ p = x := by
  intro l
  induction l with
  | nil => intro t x p h; simp [pushToTeam, updateAf, allMembers] at h
  | cons e rest ih =>
    intro t x p h
    by_cases he : e.1 = t
    · simp only [pushToTeam, updateAf, if_pos he] at h
      simp only [allMembers, List.flatMap_cons, List.mem_append] at h ⊢
      rcases h with h | h
      · rcases h with h' | h'
        · exact .inl (.inl h')
        · exact .inr (by simpa using h')
      · exact .inl (.inr h)
    · simp only [pushToTeam, updateAf, if_neg he] at h
      simp only [allMembers, List.flatMap_cons, List.mem_append] at h ⊢
      rcases h with h | h
      · exact .inl (.inl h)
      · rcases ih t x p h with h' | h'
        · exact .inl (.inr h')
        · exact .inr h'

lemma pickTeam_succ (tc : Nat) (teams : List (Nat × List Nat)) :
    pickTeam (tc + 1) teams =
      if (teamMembers teams tc).length
          < (teamMembers teams (pickTeam tc teams)).length then tc
      else pickTeam tc teams := by
  unfold pickTeam
  rw [List.range_succ, List.foldl_append]
  rfl

/-- `min_by_key` over `(0..tc)`: the chosen team index is in range, its size
is minimal, and every earlier index has strictly larger size (first minimum
wins ties). -/
lemma pickTeam_spec (tc : Nat) (teams : List (Nat × List Nat)) (h : 0 < tc) :
    pickTeam tc teams < tc
    ∧ (∀ i, i < tc → (teamMembers teams (pickTeam tc teams)).length
          ≤ (teamMembers teams i).length)
    ∧ (∀ j, j < pickTeam tc teams →
        (teamMembers teams (pickTeam tc teams)).length
          < (teamMembers teams j).length) := by
  induction tc with
  | zero => omega
  | succ n ih =>
    rcases Nat.eq_zero_or_pos n with hn | hn
    · subst hn
      have h0 : pickTeam 1 teams = 0 := by
        unfold pickTeam
        rw [List.range_succ, List.range_zero]
        simp
      simp only [Nat.zero_add]
      refine ⟨by omega, ?_, ?_⟩
      · intro i hi
        interval_cases i
        simp [h0]
      · intro j hj
        rw [h0] at hj
        omega
    · obtain ⟨ih1, ih2, ih3⟩ := ih hn
      rw [pickTeam_succ]
      split
      · next hlt =>
        refine ⟨by omega, ?_, ?_⟩
        · intro i hi
          rcases Nat.lt_succ_iff_lt_or_eq.mp hi with hi' | hi'
          · exact le_of_lt (lt_of_lt_of_le hlt (ih2 i hi'))
          · subst hi'; rfl
        · intro j hj
          exact lt_of_lt_of_le hlt (ih2 j hj)
      · next hge =>
        refine ⟨by omega, ?_, ih3⟩
        intro i hi
        rcases Nat.lt_succ_iff_lt_or_eq.mp hi with hi' | hi'
        · exact ih2 i hi'
        · subst hi'; omega

lemma lookupA_updateA_ne {β : Type} (l : List (Nat × β)) (k j : Nat) (v : β)
    (h : ¬ j = k) : lookupA (updateA l k v) j = lookupA l j := by
  induction l with
  | nil => rfl
  | cons e rest ih =>
    rcases e with ⟨x, y⟩
    by_cases hxk : x = k
    · subst hxk
      have hxj : ¬ x = j := fun hh => h hh.symm
      simp [updateA, lookupA, hxj]
    · simp only [updateA, if_neg hxk, lookupA]
      by_cases hxj : x = j <;> simp [hxj, ih]

/-- The reshuffle on teams `[[a,b,c],[d]]` when the team count stays 2 and
the per-team limit drops from 5 to 2: `c` is drained from team 0's tail and
greedy-placed into team 1, the smaller team. -/
lemma reshuffle_shape (st ns : LobbySettings) (a b c d : Nat)
    (htc : st.team_count = 2) (hlim : st.player_limit_per_team = 5)
    (hntc : ns.team_count = 2) (hnlim : ns.player_limit_per_team = 2) :
    reshuffleTeams st ns [(0, [a, b, c]), (1, [d])]
      = [(0, [a, b]), (1, [d, c])] := by
  unfold reshuffleTeams
  rw [htc, hlim, hntc, hnlim]
  norm_num
  simp [pickTeam, teamMembers, lookupA, pushToTeam, updateAf]
  norm_num [List.range_succ]

section GuardLemmas

set_option maxHeartbeats 800000

lemma guardCreate (s : ServerState) (pid : Nat) (pl : PlayerRec) (r : String)
    (hpl : lookupA s.players pid = some pl)
    (h : checkGuards s pid .CreateLobby = some r) :
    handleCreateLobby s pid pl = some (s, [(pid, .RequestRefused r)]) := by
  simp only [checkGuards, hpl] at h
  unfold handleCreateLobby
  repeat' split
  all_goals simp_all [refuse, sendMessage, hpl]

lemma guardJoin (s : ServerState) (pid : Nat) (pl : PlayerRec) (lid : Nat) (r : String)
    (hpl : lookupA s.players pid = some pl)
    (h : checkGuards s pid (.JoinLobby lid) = some r) :
    handleJoinLobby s pid pl lid = some (s, [(pid, .RequestRefused r)]) := by
  simp only [checkGuards, hpl] at h
  unfold handleJoinLobby
  repeat' split
  all_goals simp_all [refuse, sendMessage, hpl]

lemma guardSwitchTeam (s : ServerState) (pid : Nat) (pl : PlayerRec)
    (id team : Nat) (r : String)
    (hpl : lookupA s.players pid = some pl)
    (h : checkGuards s pid (.SwitchTeam id team) = some r) :
    handleSwitchTeam s pid pl id team = some (s, [(pid, .RequestRefused r)]) := by
  simp only [checkGuards, hpl] at h
  unfold handleSwitchTeam
  repeat' split
  all_goals simp_all [refuse, sendMessage, hpl]

lemma guardSwitchPlaces (s : ServerState) (pid : Nat) (pl : PlayerRec)
    (a b : Nat) (r : String)
    (hpl : lookupA s.players pid = some pl)
    (h : checkGuards s pid (.SwitchPlaces a b) = some r) :
    handleSwitchPlaces s pid pl a b = some (s, [(pid, .RequestRefused r)]) := by
  simp only [checkGuards, hpl] at h
  unfold handleSwitchPlaces
  repeat' split
  all_goals simp_all [refuse, sendMessage, hpl]

lemma guardGetLobbyInfo (s : ServerState) (pid lid : Nat) (pl : PlayerRec)
    (r : String)
    (hpl : lookupA s.players pid = some pl)
    (h : checkGuards s pid (.GetLobbyInfo lid) = some r) :
    handleGetLobbyInfo s pid lid = some (s, [(pid, .RequestRefused r)]) := by
  simp only [checkGuards, hpl] at h
  unfold handleGetLobbyInfo
  repeat' split
  all_goals simp_all [refuse, sendMessage, hpl]

lemma guardKick (s : ServerState) (pid : Nat) (pl : PlayerRec) (id : Nat)
    (r : String)
    (hpl : lookupA s.players pid = some pl)
    (h : checkGuards s pid (.KickPlayer id) = some r) :
    handleKickPlayer s pid pl id = some (s, [(pid, .RequestRefused r)]) := by
  simp only [checkGuards, hpl] at h
  unfold handleKickPlayer
  repeat' split
  all_goals simp_all [refuse, sendMessage, hpl]

lemma guardUpdateSettings (s : ServerState) (pid : Nat) (pl : PlayerRec)
    (ns : LobbySettings) (r : String)
    (hpl : lookupA s.players pid = some pl)
    (h : checkGuards s pid (.UpdateSettings ns) = some r) :
    handleUpdateSettings s pid pl ns = some (s, [(pid, .RequestRefused r)]) := by
  simp only [checkGuards, hpl] at h
  unfold handleUpdateSettings
  repeat' split
  all_goals simp_all [refuse, sendMessage, hpl]

lemma guardEnterCS (s : ServerState) (pid : Nat) (pl : PlayerRec) (r : String)
    (hpl : lookupA s.players pid = some pl)
    (h : checkGuards s pid .EnterChampSelect = some r) :
    handleEnterChampSelect s pid pl = some (s, [(pid, .RequestRefused r)]) := by
  simp only [checkGuards, hpl] at h
  unfold handleEnterChampSelect
  repeat' split
  all_goals simp_all [refuse, sendMessage, hpl]

lemma guardSelectChampion (s : ServerState) (pid : Nat) (pl : PlayerRec)
    (c : String) (r : String)
    (hpl : lookupA s.players pid = some pl)
    (h : checkGuards s pid (.SelectChampion c) = some r) :
    handleSelectChampion s pid pl c = some (s, [(pid, .RequestRefused r)]) := by
  simp only [checkGuards, hpl] at h
  unfold handleSelectChampion
  repeat' split
  all_goals simp_all [refuse, sendMessage, hpl]

lemma guardLockCS (s : ServerState) (pid : Nat) (pl : PlayerRec) (r : String)
    (hpl : lookupA s.players pid = some pl)
    (h : checkGuards s pid .LockChampSelection = some r) :
    handleLockChampSelection s pid pl = some (s, [(pid, .RequestRefused r)]) := by
  simp only [checkGuards, hpl] at h
  unfold handleLockChampSelection
  repeat' split
  all_goals simp_all [refuse, sendMessage, hpl]

end GuardLemmas

/-- C2: whenever the guard sequence of a `MessageReceived` event fails with
some reason, `handle_message` sends exactly one message — `RequestRefused`
with that reason, to the requesting player — and returns the server state
(lobbies, players, game servers, port set) completely unchanged; in
particular no broadcast reaches any other player. -/
theorem guard_failure_refuses_unchanged (s : ServerState) (pid : Nat)
    (msg : MessageFromPlayer) (r : String)
    (h : checkGuards s pid msg = some r) :
    handleMessage s pid msg = some (s, [(pid, .RequestRefused r)]) := by
  rcases hpl : lookupA s.players pid with _ | pl
  · simp [checkGuards, hpl] at h
  · cases msg with
    | InitialHandshake name => simp [checkGuards, hpl] at h
    | CreateLobby =>
      simp only [handleMessage, hpl]; exact guardCreate s pid pl r hpl h
    | JoinLobby lid =>
      simp only [handleMessage, hpl]; exact guardJoin s pid pl lid r hpl h
    | LeaveLobby => simp [checkGuards, hpl] at h
    | SwitchTeam id team =>
      simp only [handleMessage, hpl]; exact guardSwitchTeam s pid pl id team r hpl h
    | SwitchPlaces a b =>
      simp only [handleMessage, hpl]; exact guardSwitchPlaces s pid pl a b r hpl h
    | GetLobbyInfo lid =>
      simp only [handleMessage, hpl]; exact guardGetLobbyInfo s pid lid pl r hpl h
    | GetLobbyList => simp [checkGuards, hpl] at h
    | GetPlayerInfo id => simp [checkGuards, hpl] at h
    | KickPlayer id =>
      simp only [handleMessage, hpl]; exact guardKick s pid pl id r hpl h
    | UpdateSettings ns =>
      simp only [handleMessage, hpl]; exact guardUpdateSettings s pid pl ns r hpl h
    | EnterChampSelect =>
      simp only [handleMessage, hpl]; exact guardEnterCS s pid pl r hpl h
    | SelectChampion c =>
      simp only [handleMessage, hpl]; exact guardSelectChampion s pid pl c r hpl h
    | LockChampSelection =>
      simp only [handleMessage, hpl]; exact guardLockCS s pid pl r hpl h
    | StartGame => simp [checkGuards, hpl] at h
    | Disconnecting => simp [checkGuards, hpl] at h

/-- Witness for C2: on `c2State`, `CreateLobby` from player 1 fails the
`not_in_lobby` guard and the handler refuses with the guard's reason,
leaving the state unchanged. -/
theorem guard_failure_refuses_unchanged_witness :
    checkGuards c2State 1 .CreateLobby = some "You are already in a lobby."
    ∧ handleMessage c2State 1 .CreateLobby
        = some (c2State, [(1, .RequestRefused "You are already in a lobby.")]) :=
  ⟨by decide, guard_failure_refuses_unchanged c2State 1 .CreateLobby
    "You are already in a lobby." (by decide)⟩

/-- C1: `start_game` does pick the smallest port of the configured range that
is not in `used_game_server_ports`, but the chosen port is never inserted
into that set — the set stays empty — so the next `start_game`, run while the
first game server is still live, picks the same port: after starting games
for lobbies 1 and 2, both live handles hold port 40000.  This contradicts the
claim that the port is marked used and that ports are unique across live
handles. -/
theorem start_game_reuses_port :
    findFreePort c1State.port_lo c1State.port_hi c1State.used_game_server_ports
        = some 40000
    ∧ c1After1.game_servers = [(1, 40000)]
    ∧ c1After1.used_game_server_ports = []
    ∧ c1After2.game_servers = [(1, 40000), (2, 40000)]
    ∧ c1After2.used_game_server_ports = [] := by
  refine ⟨by decide, by decide, by decide, by decide, by decide⟩

/-- C3: the left-lobby routine removes a departing member from its team but
never touches `ChampSelectState.selected_champs`; after player 2 leaves
lobby 10 during champ select, the lobby is still in ChampSelect, its members
are exactly `[1]`, yet `selected_champs` still holds the two keys `[1, 2]` —
a key for the non-member 2.  The claimed invariant
`dom(selected_champs) = members` is violated in this reachable state. -/
theorem champ_select_keys_go_stale :
    lobbyMembersOf c3AfterLeave 10 = some [1]
    ∧ champSelectKeysOf c3AfterLeave 10 = some [1, 2] := by
  refine ⟨by decide, by decide⟩

/-- C8 counterexample: a `SwitchTeam` naming team index 0, refused because
team 0 is at the player limit, is refused with "Red Team is full." — not
with "Team 0 is full." as the claim states (the `Display` implementation for
`Team` prints "Red Team" for index 0 and "Blue Team" for index 1). -/
theorem switch_team_message_not_team_zero :
    handleMessage c8State 1 (.SwitchTeam 1 0)
        = some (c8State, [(1, .RequestRefused "Red Team is full.")])
    ∧ "Red Team is full." ≠ "Team 0 is full." := by
  refine ⟨by decide, by decide⟩

/-- C8 amended: the `SwitchTeam` refusal messages are
"{team} does not exist." and "{team} is full." where `{team}` is the team's
display name — "Red Team" for index 0, "Blue Team" for index 1 and
"Team {n}" only for n ≥ 2. -/
theorem switch_team_refusal_messages (s : ServerState) (pid : Nat)
    (pl : PlayerRec) (id team lid : Nat) (lobby : Lobby)
    (hpl : lookupA s.players pid = some pl)
    (hin : pl.in_lobby = some lid)
    (hlob : lookupA s.lobbies lid = some lobby)
    (hnorm : lobby.lobby_state = .Normal)
    (hperm1 : ¬(lobby.settings.players_can_change_team = false ∧ lobby.leader ≠ pid))
    (hperm2 : ¬(id ≠ pid ∧ lobby.leader ≠ pid)) :
    (lookupA lobby.players team = none →
      handleMessage s pid (.SwitchTeam id team)
        = some (s, [(pid, .RequestRefused (displayTeam team ++ " does not exist."))]))
    ∧ (∀ l, lookupA lobby.players team = some l →
        lobby.settings.player_limit_per_team ≤ l.length →
        handleMessage s pid (.SwitchTeam id team)
          = some (s, [(pid, .RequestRefused (displayTeam team ++ " is full."))]))
    ∧ displayTeam 0 = "Red Team"
    ∧ displayTeam 1 = "Blue Team"
    ∧ (∀ n, 2 ≤ n → displayTeam n = "Team " ++ toString n) := by
  refine ⟨fun hmiss => ?_, fun l hl hfull => ?_, by decide, by decide, ?_⟩
  · simp only [handleMessage, hpl, handleSwitchTeam, hin, hlob, hnorm, hmiss]
    simp [hperm1, hperm2, refuse, sendMessage, hpl]
  · simp only [handleMessage, hpl, handleSwitchTeam, hin, hlob, hnorm]
    simp [hperm1, hperm2, hl, teamMembers, hfull, refuse, sendMessage, hpl]
  · intro n hn
    match n, hn with
    | n + 2, _ => simp [displayTeam]

/-- Witness for C8's amended statement: on `c8State`, both refusal shapes are
realized — `SwitchTeam` to the absent team 5 refuses with
"Team 5 does not exist.", and to the full team 0 with "Red Team is full.". -/
theorem switch_team_refusal_messages_witness :
    (lookupA c8State.players 1
        = some { player := { id := 1, name := "a" }, in_lobby := some 10 })
    ∧ (∀ l, lookupA
          [(0, [1, 2, 3, 4, 5]), (1, ([] : List Nat))] 5 = some l →
        exSettings.player_limit_per_team ≤ l.length →
        handleMessage c8State 1 (.SwitchTeam 1 5)
          = some (c8State, [(1, .RequestRefused (displayTeam 5 ++ " is full."))]))
    ∧ (lookupA [(0, [1, 2, 3, 4, 5]), (1, ([] : List Nat))] 5 = none →
        handleMessage c8State 1 (.SwitchTeam 1 5)
          = some (c8State, [(1, .RequestRefused (displayTeam 5 ++ " does not exist."))])) := by
  have h := switch_team_refusal_messages c8State 1
    { player := { id := 1, name := "a" }, in_lobby := some 10 } 1 5 10
    { id := 10, settings := exSettings, leader := 1,
      players := [(0, [1, 2, 3, 4, 5]), (1, [])], lobby_state := .Normal }
    (by decide) (by decide) (by decide) (by decide) (by decide) (by decide)
  exact ⟨by decide, h.2.1, h.1⟩

/-- C4 counterexample: the promotion reads
`lobby.players.values().flatten().next()` over a std `HashMap`, whose
iteration order is unspecified.  `c4AltState` holds the very map content the
claim describes — teams `{0: [1, 2], 1: [3]}`, leader 1 — under the
admissible iteration order that visits team 1 first.  When leader 1 leaves,
the code promotes player 3, the head of that iteration order, even though
the first remaining player in team-ascending order is player 2 (team 0's
member list after removal is exactly `[2]`): the claimed team-ascending
promotion rule is false. -/
theorem leader_left_not_team_ascending :
    (lookupA (handlePlayerLeftLobby c4AltState 1).1.lobbies 10).map Lobby.leader
        = some 3
    ∧ (lookupA (handlePlayerLeftLobby c4AltState 1).1.lobbies 10).map
          (fun l => teamMembers l.players 0) = some [2]
    ∧ ¬ (3 : Nat) = 2 := by
  refine ⟨by decide, by decide, by decide⟩

/-- C4 amended: whenever the left-lobby routine removes the leader of a
lobby that still has at least one remaining member, the player promoted to
leader is the first remaining player in the team map's iteration order, then
intra-team order — the head of the flattened remaining team lists in stored
order, quantified here over every stored order since the source's `HashMap`
leaves it unspecified — and the routine broadcasts
`LobbyLeaderChanged(new_leader)` followed by `PlayerLeftYourLobby(pid)` to
the remaining members. -/
theorem leader_left_promotes_iteration_first (s : ServerState) (pid lid : Nat)
    (pl : PlayerRec) (lobby : Lobby)
    (hpl : lookupA s.players pid = some pl)
    (hin : pl.in_lobby = some lid)
    (hlob : lookupA s.lobbies lid = some lobby)
    (hleader : lobby.leader = pid)
    (hrem : (removeFromTeams lobby.players pid).all (fun e => e.2.isEmpty) = false)
    (hconn : ∀ p ∈ allMembers (removeFromTeams lobby.players pid),
      (lookupA s.players p).isSome = true) :
    handlePlayerLeftLobby s pid =
      ({ s with
          players := updateA s.players pid { pl with in_lobby := none },
          lobbies := updateA s.lobbies lid
            { lobby with players := removeFromTeams lobby.players pid,
                         leader := (allMembers (removeFromTeams lobby.players pid)).headD 0 } },
       (allMembers (removeFromTeams lobby.players pid)).map
           (fun p => (p, .LobbyLeaderChanged ((allMembers (removeFromTeams lobby.players pid)).headD 0)))
         ++ (allMembers (removeFromTeams lobby.players pid)).map
           (fun p => (p, .PlayerLeftYourLobby pid))) := by
  have hbl : lookupA (updateA s.lobbies lid
      { lobby with players := removeFromTeams lobby.players pid,
                   leader := (allMembers (removeFromTeams lobby.players pid)).headD 0 }) lid
      = some { lobby with players := removeFromTeams lobby.players pid,
                          leader := (allMembers (removeFromTeams lobby.players pid)).headD 0 } :=
    lookupA_updateA_self _ _ _ _ hlob
  unfold handlePlayerLeftLobby
  simp only [hpl, hin, hlob]
  rw [if_neg (by simp [hrem]), if_pos hleader]
  rw [broadcast_all _ _ _ _ hbl
        (fun p hp => by rw [lookupA_updateA_isSome]; exact hconn p hp),
      broadcast_all _ _ _ _ hbl
        (fun p hp => by rw [lookupA_updateA_isSome]; exact hconn p hp)]

/-- Witness for C4's amended statement: in `c4AltState` — teams stored in the
iteration order `[(1, [3]), (0, [1, 2])]` — leader 1 leaves; player 3, the
head of the flattened remaining lists in that order, is promoted, and
`LobbyLeaderChanged` goes to the remaining members 3 and 2 followed by
`PlayerLeftYourLobby(1)`. -/
theorem leader_left_promotes_iteration_first_witness :
    ((removeFromTeams c4AltLobby.players 1).all (fun e => e.2.isEmpty) = false)
    ∧ handlePlayerLeftLobby c4AltState 1 =
        ({ c4AltState with
            players := updateA c4AltState.players 1 { c4Rec with in_lobby := none },
            lobbies := updateA c4AltState.lobbies 10
              { c4AltLobby with players := removeFromTeams c4AltLobby.players 1,
                                leader := (allMembers (removeFromTeams c4AltLobby.players 1)).headD 0 } },
         (allMembers (removeFromTeams c4AltLobby.players 1)).map
             (fun p => (p, .LobbyLeaderChanged ((allMembers (removeFromTeams c4AltLobby.players 1)).headD 0)))
           ++ (allMembers (removeFromTeams c4AltLobby.players 1)).map
             (fun p => (p, .PlayerLeftYourLobby 1))) :=
  ⟨by decide, leader_left_promotes_iteration_first c4AltState 1 10 c4Rec
    c4AltLobby (by decide) (by decide) (by decide) (by decide) (by decide)
    (by decide)⟩

/-- C5: a `JoinLobby` that passes its guards (requester in no lobby, lobby
exists, Normal, open, member count below `team_count * player_limit_per_team`
— `≥` is refused as "The lobby is full") appends the requester to the team
picked by `min_by_key`: its size is minimal and every lower-indexed team is
strictly larger.  The requester's `in_lobby` becomes the lobby, the requester
gets `YouJoinedLobby`, and every other member gets
`PlayerJoinedYourLobby(pid)`. -/
theorem join_lobby_smallest_team (s : ServerState) (pid lid : Nat)
    (pl : PlayerRec) (lobby : Lobby)
    (hpl : lookupA s.players pid = some pl)
    (hnin : pl.in_lobby = none)
    (hlob : lookupA s.lobbies lid = some lobby)
    (hnorm : lobby.lobby_state = .Normal)
    (hopen : lobby.settings.lobby_is_open = true)
    (hnotfull : totalPlayers lobby.players
        < lobby.settings.team_count * lobby.settings.player_limit_per_team)
    (hconn : ∀ p ∈ allMembers lobby.players, p ≠ pid →
      (lookupA s.players p).isSome = true) :
    pickTeam lobby.settings.team_count lobby.players < lobby.settings.team_count
    ∧ (∀ i, i < lobby.settings.team_count →
        (teamMembers lobby.players (pickTeam lobby.settings.team_count lobby.players)).length
          ≤ (teamMembers lobby.players i).length)
    ∧ (∀ j, j < pickTeam lobby.settings.team_count lobby.players →
        (teamMembers lobby.players (pickTeam lobby.settings.team_count lobby.players)).length
          < (teamMembers lobby.players j).length)
    ∧ handleMessage s pid (.JoinLobby lid) = some
        ({ s with
            players := updateA s.players pid { pl with in_lobby := some lid },
            lobbies := updateA s.lobbies lid
              { lobby with players := pushToTeam lobby.players (pickTeam lobby.settings.team_count lobby.players) pid } },
         (pid, .YouJoinedLobby lid) ::
           ((allMembers (pushToTeam lobby.players
                (pickTeam lobby.settings.team_count lobby.players) pid)).filter
              (fun p => ¬ p = pid)).map
             (fun p => (p, .PlayerJoinedYourLobby pid))) := by
  have htc : 0 < lobby.settings.team_count := by
    rcases Nat.eq_zero_or_pos lobby.settings.team_count with h0 | h0
    · rw [h0] at hnotfull; simp at hnotfull
    · exact h0
  obtain ⟨hlt, hmin, hfirst⟩ := pickTeam_spec lobby.settings.team_count lobby.players htc
  refine ⟨hlt, hmin, hfirst, ?_⟩
  have hbl : lookupA (updateA s.lobbies lid
      { lobby with players := pushToTeam lobby.players (pickTeam lobby.settings.team_count lobby.players) pid }) lid
      = some { lobby with players := pushToTeam lobby.players (pickTeam lobby.settings.team_count lobby.players) pid } :=
    lookupA_updateA_self _ _ _ _ hlob
  unfold handleMessage handleJoinLobby
  simp only [hpl, hlob]
  rw [if_neg (by simp [hnin]), if_neg (by simp [hnorm]),
      if_neg (by simp [hopen]), if_neg (Nat.not_le.mpr hnotfull)]
  rw [broadcast_excluding _ _ _ _ _ hbl ?hc]
  case hc =>
    intro p hp hne
    rw [lookupA_updateA_isSome]
    rcases mem_allMembers_pushToTeam _ _ _ p hp with h' | h'
    · exact hconn p h' hne
    · exact absurd h' hne
  simp only [sendMessage, lookupA_updateA_self _ _ _ _ hpl, Option.isSome_some,
    if_pos, List.singleton_append]

/-- Witness for C5: player 9 joins lobby 20 with teams `[[7],[]]`; team 1 is
picked (smallest), 9 is appended there, 9 receives `YouJoinedLobby` and the
other member 7 receives `PlayerJoinedYourLobby(9)`. -/
theorem join_lobby_smallest_team_witness :
    (totalPlayers c5Lobby.players
        < c5Lobby.settings.team_count * c5Lobby.settings.player_limit_per_team)
    ∧ (pickTeam c5Lobby.settings.team_count c5Lobby.players < c5Lobby.settings.team_count
      ∧ (∀ i, i < c5Lobby.settings.team_count →
          (teamMembers c5Lobby.players (pickTeam c5Lobby.settings.team_count c5Lobby.players)).length
            ≤ (teamMembers c5Lobby.players i).length)
      ∧ (∀ j, j < pickTeam c5Lobby.settings.team_count c5Lobby.players →
          (teamMembers c5Lobby.players (pickTeam c5Lobby.settings.team_count c5Lobby.players)).length
            < (teamMembers c5Lobby.players j).length)
      ∧ handleMessage c5State 9 (.JoinLobby 20) = some
          ({ c5State with
              players := updateA c5State.players 9 { c5Rec with in_lobby := some 20 },
              lobbies := updateA c5State.lobbies 20
                { c5Lobby with players := pushToTeam c5Lobby.players (pickTeam c5Lobby.settings.team_count c5Lobby.players) 9 } },
           (9, .YouJoinedLobby 20) ::
             ((allMembers (pushToTeam c5Lobby.players
                  (pickTeam c5Lobby.settings.team_count c5Lobby.players) 9)).filter
                (fun p => ¬ p = 9)).map
               (fun p => (p, .PlayerJoinedYourLobby 9)))) :=
  ⟨by decide, join_lobby_smallest_team c5State 9 20 c5Rec c5Lobby (by decide)
    (by decide) (by decide) (by decide) (by decide) (by decide) (by decide)⟩

/-- C6: for any Normal lobby with teams `[[a,b,c],[d]]`, team count 2 and
per-team limit 5, the leader's `UpdateSettings` that only lowers the limit to
2 displaces `c` from team 0's tail and greedy-places it into team 1, giving
exactly `[[a,b],[d,c]]`, and broadcasts the new settings to the members. -/
theorem update_settings_lower_limit_displaces (s : ServerState) (pid lid : Nat)
    (pl : PlayerRec) (lobby : Lobby) (a b c d : Nat)
    (hpl : lookupA s.players pid = some pl)
    (hin : pl.in_lobby = some lid)
    (hlob : lookupA s.lobbies lid = some lobby)
    (hnorm : lobby.lobby_state = .Normal)
    (hleader : lobby.leader = pid)
    (hplayers : lobby.players = [(0, [a, b, c]), (1, [d])])
    (htc : lobby.settings.team_count = 2)
    (hlim : lobby.settings.player_limit_per_team = 5)
    (hname : ¬ lobby.settings.name = "")
    (hws : allWhitespace lobby.settings.name = false)
    (hmap : mapExists lobby.settings.map = true)
    (hconn : ∀ p ∈ [a, b, d, c], (lookupA s.players p).isSome = true) :
    handleMessage s pid
        (.UpdateSettings { lobby.settings with player_limit_per_team := 2 })
      = some
        ({ s with lobbies := updateA s.lobbies lid { lobby with players := [(0, [a, b]), (1, [d, c])], settings := { lobby.settings with player_limit_per_team := 2 } } },
         [a, b, d, c].map
           (fun p => (p, .SettingsUpdated { lobby.settings with player_limit_per_team := 2 }))) := by
  have hresh := reshuffle_shape lobby.settings
    { lobby.settings with player_limit_per_team := 2 } a b c d htc hlim
    (by simpa using htc) rfl
  have hbl := lookupA_updateA_self s.lobbies lid
    { lobby with players := [(0, [a, b]), (1, [d, c])], settings := { lobby.settings with player_limit_per_team := 2 } }
    lobby hlob
  unfold handleMessage handleUpdateSettings
  simp only [hpl, hin, hlob]
  rw [if_neg (by simp [hnorm]), if_neg (by simp [hleader]),
      if_neg (by simpa using hname), if_neg (by simp [hws]),
      if_neg (by simp [hmap]), if_neg (by simp [htc]),
      if_neg (by intro h; have := congrArg LobbySettings.player_limit_per_team h; simp [hlim] at this)]
  rw [hplayers, hresh]
  rw [broadcast_all _ _ _ _ hbl
    (by intro p hp; exact hconn p (by simpa [allMembers] using hp))]
  simp [allMembers]

/-- Witness for C6: in `c6State` (lobby 10, teams `[[1,2,3],[4]]`, leader 1)
lowering the limit from 5 to 2 yields teams `[[1,2],[4,3]]` and a
`SettingsUpdated` broadcast to members 1, 2, 4, 3. -/
theorem update_settings_lower_limit_displaces_witness :
    (c6Lobby.players = [(0, [1, 2, 3]), (1, [4])])
    ∧ handleMessage c6State 1
        (.UpdateSettings { c6Lobby.settings with player_limit_per_team := 2 })
      = some
        ({ c6State with lobbies := updateA c6State.lobbies 10 { c6Lobby with players := [(0, [1, 2]), (1, [4, 3])], settings := { c6Lobby.settings with player_limit_per_team := 2 } } },
         [1, 2, 4, 3].map
           (fun p => (p, .SettingsUpdated { c6Lobby.settings with player_limit_per_team := 2 }))) :=
  ⟨by decide, update_settings_lower_limit_displaces c6State 1 10
    { player := { id := 1, name := "a" }, in_lobby := some 10 } c6Lobby 1 2 3 4
    (by decide) (by decide) (by decide) (by decide) (by decide) (by decide)
    (by decide) (by decide) (by decide) (by decide) (by decide) (by decide)⟩

/-- C7: an `UpdateSettings` that passes every guard and whose new settings
equal the lobby's current settings is a complete no-op: the handler returns
the state unchanged with no sends at all — no reshuffle, no broadcast. -/
theorem update_settings_equal_noop (s : ServerState) (pid lid : Nat)
    (pl : PlayerRec) (lobby : Lobby) (ns : LobbySettings)
    (hpl : lookupA s.players pid = some pl)
    (hin : pl.in_lobby = some lid)
    (hlob : lookupA s.lobbies lid = some lobby)
    (hnorm : lobby.lobby_state = .Normal)
    (hleader : lobby.leader = pid)
    (hname : ¬ ns.name = "")
    (hws : allWhitespace ns.name = false)
    (hmap : mapExists ns.map = true)
    (htc : 1 ≤ ns.team_count)
    (heq : ns = lobby.settings) :
    handleMessage s pid (.UpdateSettings ns) = some (s, []) := by
  unfold handleMessage handleUpdateSettings
  simp only [hpl, hin, hlob]
  rw [if_neg (by simp [hnorm]), if_neg (by simp [hleader]), if_neg hname,
      if_neg (by simp [hws]), if_neg (by simp [hmap]), if_neg (by omega),
      if_pos heq]

/-- Witness for C7: in `c6State`, the leader re-sends the current settings of
lobby 10 and nothing happens: state unchanged, no messages. -/
theorem update_settings_equal_noop_witness :
    (exSettings = c6Lobby.settings)
    ∧ handleMessage c6State 1 (.UpdateSettings exSettings) = some (c6State, []) :=
  ⟨by decide, update_settings_equal_noop c6State 1 10
    { player := { id := 1, name := "a" }, in_lobby := some 10 } c6Lobby exSettings
    (by decide) (by decide) (by decide) (by decide) (by decide) (by decide)
    (by decide) (by decide) (by decide) (by decide)⟩

/-- C9: a `SwitchTeam(id, team)` that passes all guards appends `id` to the
named team and broadcasts `PlayerSwitchedTeam(id, team)` to all members even
when `id` is a member of no team of the requester's lobby — the handler never
checks the target's membership (the removal loop simply finds nothing to
remove). -/
theorem switch_team_unchecked_target (s : ServerState) (pid lid : Nat)
    (pl : PlayerRec) (lobby : Lobby) (id team : Nat) (tl : List Nat)
    (hpl : lookupA s.players pid = some pl)
    (hin : pl.in_lobby = some lid)
    (hlob : lookupA s.lobbies lid = some lobby)
    (hnorm : lobby.lobby_state = .Normal)
    (hperm1 : ¬(lobby.settings.players_can_change_team = false ∧ lobby.leader ≠ pid))
    (hperm2 : ¬(id ≠ pid ∧ lobby.leader ≠ pid))
    (hteam : lookupA lobby.players team = some tl)
    (hfull : tl.length < lobby.settings.player_limit_per_team)
    (hnm : ¬ id ∈ allMembers lobby.players)
    (hconn : ∀ p ∈ allMembers (pushToTeam lobby.players team id),
      (lookupA s.players p).isSome = true) :
    handleMessage s pid (.SwitchTeam id team) = some
      ({ s with lobbies := updateA s.lobbies lid { lobby with players := pushToTeam lobby.players team id } },
       (allMembers (pushToTeam lobby.players team id)).map
         (fun p => (p, .PlayerSwitchedTeam id team))) := by
  have hbl := lookupA_updateA_self s.lobbies lid
    { lobby with players := pushToTeam lobby.players team id } lobby hlob
  unfold handleMessage handleSwitchTeam
  simp only [hpl, hin, hlob]
  rw [if_neg (by simp [hnorm]), if_neg hperm1, if_neg hperm2,
      if_neg (by simp [hteam]),
      if_neg (by simp [teamMembers, hteam]; omega)]
  rw [removeFromTeams_of_not_mem _ _ hnm]
  rw [broadcast_all _ _ _ _ hbl hconn]

/-- Witness for C9: in `c9State`, the leader of lobby 30 switches player 100
— who is in no team of lobby 30 — onto team 1; 100 is appended there and
`PlayerSwitchedTeam(100, 1)` is broadcast to all members, 100 included. -/
theorem switch_team_unchecked_target_witness :
    (¬ 100 ∈ allMembers c9Lobby.players)
    ∧ handleMessage c9State 8 (.SwitchTeam 100 1) = some
      ({ c9State with lobbies := updateA c9State.lobbies 30 { c9Lobby with players := pushToTeam c9Lobby.players 1 100 } },
       (allMembers (pushToTeam c9Lobby.players 1 100)).map
         (fun p => (p, .PlayerSwitchedTeam 100 1))) :=
  ⟨by decide, switch_team_unchecked_target c9State 8 30
    { player := { id := 8, name := "h" }, in_lobby := some 30 } c9Lobby 100 1 []
    (by decide) (by decide) (by decide) (by decide) (by decide) (by decide)
    (by decide) (by decide) (by decide) (by decide)⟩

/-- C10: a `KickPlayer(t)` that passes its guards (requester in Normal lobby
`lid` and its leader) sends `YouLeftLobby` to `t` and runs the left-lobby
routine on `t`'s own `current_lobby`, with no check that `t` belongs to the
requester's lobby: if `t` belongs to a different lobby `tM`, `t` is removed
from `tM`'s team and its `in_lobby` cleared, while the requester's lobby is
untouched. -/
theorem kick_player_unchecked_membership (s : ServerState) (pid lid : Nat)
    (pl : PlayerRec) (lobby : Lobby) (t tM : Nat) (tr : PlayerRec)
    (lobM : Lobby)
    (hpl : lookupA s.players pid = some pl)
    (hin : pl.in_lobby = some lid)
    (hlob : lookupA s.lobbies lid = some lobby)
    (hnorm : lobby.lobby_state = .Normal)
    (hleader : lobby.leader = pid)
    (htr : lookupA s.players t = some tr)
    (htin : tr.in_lobby = some tM)
    (hMne : ¬ tM = lid)
    (hM : lookupA s.lobbies tM = some lobM)
    (hrem : (removeFromTeams lobM.players t).all (fun e => e.2.isEmpty) = false)
    (hnl : ¬ lobM.leader = t) :
    handleMessage s pid (.KickPlayer t)
      = some ((handlePlayerLeftLobby s t).1,
          sendMessage s t .YouLeftLobby ++ (handlePlayerLeftLobby s t).2)
    ∧ sendMessage s t .YouLeftLobby = [(t, .YouLeftLobby)]
    ∧ lookupA (handlePlayerLeftLobby s t).1.lobbies tM
        = some { lobM with players := removeFromTeams lobM.players t }
    ∧ lookupA (handlePlayerLeftLobby s t).1.lobbies lid = some lobby
    ∧ lookupA (handlePlayerLeftLobby s t).1.players t
        = some { tr with in_lobby := none } := by
  have hleft : handlePlayerLeftLobby s t =
      ({ s with
          players := updateA s.players t { tr with in_lobby := none },
          lobbies := updateA s.lobbies tM { lobM with players := removeFromTeams lobM.players t } },
       broadcastLobby
         { s with
            players := updateA s.players t { tr with in_lobby := none },
            lobbies := updateA s.lobbies tM { lobM with players := removeFromTeams lobM.players t } }
         tM none (.PlayerLeftYourLobby t)) := by
    unfold handlePlayerLeftLobby
    simp only [htr, htin, hM]
    rw [if_neg (by simp [hrem]), if_neg hnl]
  refine ⟨?_, by simp [sendMessage, htr], ?_, ?_, ?_⟩
  · unfold handleMessage handleKickPlayer
    simp only [hpl, hin, hlob]
    rw [if_neg (by simp [hnorm]), if_neg (by simp [hleader])]
  · rw [hleft]
    exact lookupA_updateA_self _ _ _ _ hM
  · rw [hleft]
    rw [lookupA_updateA_ne _ _ _ _ (fun hh => hMne hh.symm)]
    exact hlob
  · rw [hleft]
    exact lookupA_updateA_self _ _ _ _ htr

/-- Witness for C10: in `c10State`, player 9 — leader of lobby 40 — kicks
player 21, a member of the different lobby 41; 21 receives `YouLeftLobby`,
is removed from lobby 41's team, and lobby 40 is untouched. -/
theorem kick_player_unchecked_membership_witness :
    (c10Rec.in_lobby = some 41 ∧ ¬ (41 : Nat) = 40)
    ∧ (handleMessage c10State 9 (.KickPlayer 21)
        = some ((handlePlayerLeftLobby c10State 21).1,
            sendMessage c10State 21 .YouLeftLobby ++ (handlePlayerLeftLobby c10State 21).2)
      ∧ sendMessage c10State 21 .YouLeftLobby = [(21, .YouLeftLobby)]
      ∧ lookupA (handlePlayerLeftLobby c10State 21).1.lobbies 41
          = some { c10LobbyM with players := removeFromTeams c10LobbyM.players 21 }
      ∧ lookupA (handlePlayerLeftLobby c10State 21).1.lobbies 40 = some c10LobbyL
      ∧ lookupA (handlePlayerLeftLobby c10State 21).1.players 21
          = some { c10Rec with in_lobby := none }) :=
  ⟨⟨by decide, by decide⟩, kick_player_unchecked_membership c10State 9 40
    { player := { id := 9, name := "i" }, in_lobby := some 40 } c10LobbyL 21 41
    c10Rec c10LobbyM (by decide) (by decide) (by decide) (by decide) (by decide)
    (by decide) (by decide) (by decide) (by decide) (by decide) (by decide)⟩


end LobbyServer
